import Mathlib

/-!
# go-august: authentication state machine and authenticated request pipeline

A shallow embedding of `api.go`, `auth.go` and the record types of `lock.go`.

Conventions of the embedding

* A Go function that returns `(T, error)` returns a pair `Option T × Option GoError`
  here (`none` is Go's `nil`), so "no result value" and "no error" are visible.
* A run of a function is an `Exec`: the requests it handed to `client.Do`, in order,
  and an `Outcome`, which is either the returned value or `fault`, a run-time panic
  (a nil pointer dereference).
* Everything outside the package is a field of `World`: URL parsing as done by
  `http.NewRequest`, the round trip `client.Do`, `json.Marshal`, `json.Decoder.Decode`
  and the `String()` method that `enumer` generates for `AuthenticationMethods`.
* `Authenticator.State` is a pointer in Go; it is taken non-nil, as `NewAuthenticator`
  builds it, and the methods return the authenticator with its updated state.
* A Go `map[string]*Lock` is the list of its entries in the order `range` visits them;
  a nil pointer value is `none`.
-/

namespace August

/-! ## api.go: constants and errors -/

def apiBase : String := "https://api-production.august.com"

def tokenHeader : String := "x-august-access-token"

/-- Go `error` values that the package returns: its own two kinds, and an error made
outside the package (by the HTTP transport), carried as it is. -/
inductive GoError where
  | ErrorGeneric (Message : String)
  | ErrorUnAuth
  | external (text : String)
  deriving DecidableEq, Repr

/-- The `Error()` method of each kind. -/
def GoError.Error : GoError → String
  | .ErrorGeneric m => m
  | .ErrorUnAuth => "forbidden"
  | .external t => t

/-! ## net/http: headers, requests, responses -/

/-- Token characters of RFC 7230, as `validHeaderFieldByte` and `validMethod` test. -/
def isTokenChar (c : Char) : Bool :=
  c.isAlphanum || "!#$%&*+-.^_|~".data.contains c || c.toNat == 39 || c.toNat == 96

/-- The case rewriting loop of `canonicalMIMEHeaderKey`: upper case at the start and
after each `-`, lower case elsewhere. -/
def canonChars : Bool → List Char → List Char
  | _, [] => []
  | upper, c :: cs =>
    let c1 := if upper && c.isLower then c.toUpper
              else if !upper && c.isUpper then c.toLower else c
    c1 :: canonChars (c1 == '-') cs

/-- Go `textproto.CanonicalMIMEHeaderKey`: a key with a byte that is not a token
character is returned unchanged. -/
def CanonicalMIMEHeaderKey (s : String) : String :=
  if s.data.all isTokenChar then String.mk (canonChars true s.data) else s

/-- Go `http.Header`, a multimap: the entries in the order they were added. -/
structure Header where
  entries : List (String × String)
  deriving DecidableEq, Repr

/-- Go `Header.Add`: appends the value under the canonical key. -/
def Header.Add (h : Header) (key value : String) : Header :=
  ⟨h.entries ++ [(CanonicalMIMEHeaderKey key, value)]⟩

/-- Go `Header.Get`: the first value under the canonical key, or the empty string. -/
def Header.Get (h : Header) (key : String) : String :=
  match h.entries.find? (fun e => e.1 == CanonicalMIMEHeaderKey key) with
  | some e => e.2
  | none => ""

/-- The values stored under a key, in order. -/
def Header.Values (h : Header) (key : String) : List String :=
  (h.entries.filter (fun e => e.1 == CanonicalMIMEHeaderKey key)).map Prod.snd

structure Request where
  Method : String
  URL : String
  Header : Header
  Body : Option String
  deriving DecidableEq, Repr

structure Response where
  StatusCode : Int
  Header : Header
  Body : String
  deriving DecidableEq, Repr

def StatusOK : Int := 200

def StatusUnauthorized : Int := 401

def StatusForbidden : Int := 403

/-! ## lock.go: records -/

structure Lock where
  ID : String
  Name : String
  UserType : String
  HouseID : String
  HouseName : String
  deriving DecidableEq, Repr

structure LockStatus where
  Status : Int
  ChangedAt : String
  IsChanged : Bool
  IsValid : Bool
  DoorState : String
  deriving DecidableEq, Repr

structure LockUser where
  UserType : String
  FirstName : String
  LastName : String
  IDs : List String
  deriving DecidableEq, Repr

structure LockDetails where
  toLock : Lock
  Type_ : Int
  Created : String
  Updated : String
  Calibrated : Bool
  Battery : Float
  Status : Option LockStatus
  Users : List (String × Option LockUser)
  SkuNumber : String
  TimeZone : String
  ZWaveDSK : String
  EntryCodes : Bool
  SerialNumber : String
  FirmwareVersion : String
  HomeKitEnabled : Bool
  ZWaveEnabled : Bool

/-! ## auth.go: data -/

def AuthRequiresAuthentication : Int := 0

def AuthRequiresValidation : Int := 1

def AuthAuthenticated : Int := 2

def AuthBadPassword : Int := 3

def AuthMethPhone : Int := 0

def AuthMethEmail : Int := 1

structure AuthenticationState where
  InstallID : String
  AccessToken : String
  State : Int
  deriving DecidableEq, Repr

structure Authenticator where
  UserName : String
  Password : String
  AuthMethod : Int
  State : AuthenticationState
  deriving DecidableEq, Repr

structure authRequest where
  Identifier : String
  InstallID : String
  Password : String
  deriving DecidableEq, Repr

structure authResponse where
  TokenExpiresAt : String
  Password : Bool
  InstallID : Bool
  deriving DecidableEq, Repr

structure sendRequest where
  UserName : String
  deriving DecidableEq, Repr

structure opTimeoutRequest where
  TimeoutSeconds : Int
  deriving DecidableEq, Repr

/-! ## The world outside the package -/

/-- What the package calls and does not define. An `Except.error` carries the text of
the Go error. `DecodeLocks` yields the decoded map as the list of its entries in the
order the `range` loop of `GetLocks` visits them. -/
structure World where
  ParseURL : String → Except String String
  Do : Request → Except String Response
  AuthMethodString : Int → String
  MarshalAuthRequest : authRequest → Except String String
  MarshalSendRequest : sendRequest → Except String String
  MarshalStringMap : List (String × String) → Except String String
  MarshalOpTimeoutRequest : opTimeoutRequest → Except String String
  DecodeAuthResponse : String → Except String authResponse
  DecodeLocks : String → Except String (List (String × Option Lock))
  DecodeLockDetails : String → Except String LockDetails
  DecodeLockStatus : String → Except String LockStatus

/-- Go `http.NewRequest`: an empty method means GET, the method has to be a token, the
URL has to parse; the new request has an empty header. -/
def NewRequest (w : World) (method url : String) (body : Option String) :
    Except String Request :=
  let method := if method = "" then "GET" else method
  if method.data.all isTokenChar then
    match w.ParseURL url with
    | .error e => .error e
    | .ok u => .ok { Method := method, URL := u, Header := ⟨[]⟩, Body := body }
  else .error "net/http: invalid method"

/-- How a run ends: with a returned value, or with a run-time panic. -/
inductive Outcome (α : Type) where
  | fault : Outcome α
  | ret : α → Outcome α
  deriving DecidableEq

/-- A run: the requests handed to `client.Do`, in order, and how the run ended. -/
structure Exec (α : Type) where
  sent : List Request
  out : Outcome α

/-- A run of an `Authenticator` method: also the authenticator as the run left it. -/
structure AuthExec where
  sent : List Request
  auth : Authenticator
  out : Outcome (Option GoError)

/-! ## api.go: the request pipeline -/

/-- Adds default headers. -/
def addHeaders (r : Request) (token : String) : Request :=
  let h := r.Header.Add "Accept-Version" "0.0.1"
  let h := h.Add "x-august-api-key" "79fd0eb6-381d-4adf-95a0-47721289d1d9"
  let h := h.Add "x-kease-api-key" "79fd0eb6-381d-4adf-95a0-47721289d1d9"
  let h := h.Add "x-kease-api-key" "79fd0eb6-381d-4adf-95a0-47721289d1d9"
  let h := h.Add "Content-Type" "application/json"
  let h := if "" ≠ token then h.Add tokenHeader token else h
  { r with Header := h }

/-- Performs August API call. The error of `http.NewRequest` is overwritten without
being read; when it was set the request is nil and `addHeaders` dereferences it. -/
def doAPICall (w : World) (a : Authenticator) (method url : String)
    (reader : Option String) : Exec (Option Response × Option GoError) :=
  match NewRequest w method (apiBase ++ url) reader with
  | .error _ => ⟨[], .fault⟩
  | .ok req =>
    let req := addHeaders req a.State.AccessToken
    match w.Do req with
    | .error e => ⟨[req], .ret (none, some (.external e))⟩
    | .ok resp =>
      if resp.StatusCode ≠ StatusOK then
        if resp.StatusCode = StatusForbidden ∨ resp.StatusCode = StatusUnauthorized then
          ⟨[req], .ret (none, some .ErrorUnAuth)⟩
        else ⟨[req], .ret (none, some (.ErrorGeneric "bad response"))⟩
      else ⟨[req], .ret (some resp, none)⟩

/-- APIProvider defines August APIs. -/
structure APIProvider where
  auth : Authenticator
  deriving DecidableEq, Repr

/-- NewAPIProvider constructs a new API provider. -/
def NewAPIProvider (auth : Authenticator) : APIProvider :=
  { auth := auth }

/-- The `range` loop of `GetLocks` over the decoded map: stores the key in the record
the value points to and appends it; a nil value is dereferenced. -/
def rangeLocks : List (String × Option Lock) → List Lock → Outcome (List Lock)
  | [], res => .ret res
  | (_, none) :: _, _ => .fault
  | (k, some v) :: rest, res => rangeLocks rest (res ++ [{ v with ID := k }])

/-- GetLocks returns all available locks. -/
def APIProvider.GetLocks (w : World) (p : APIProvider) :
    Exec (Option (List Lock) × Option GoError) :=
  let c := doAPICall w p.auth "GET" "/users/locks/mine" none
  match c.out with
  | .fault => ⟨c.sent, .fault⟩
  | .ret (_, some err) => ⟨c.sent, .ret (none, some err)⟩
  | .ret (none, none) => ⟨c.sent, .fault⟩
  | .ret (some resp, none) =>
    match w.DecodeLocks resp.Body with
    | .error e => ⟨c.sent, .ret (none, some (.ErrorGeneric e))⟩
    | .ok locksResp =>
      match rangeLocks locksResp [] with
      | .fault => ⟨c.sent, .fault⟩
      | .ret res => ⟨c.sent, .ret (some res, none)⟩

/-- GetLockDetails returns detailed information about the lock. -/
def APIProvider.GetLockDetails (w : World) (p : APIProvider) (lockID : String) :
    Exec (Option LockDetails × Option GoError) :=
  let c := doAPICall w p.auth "GET" ("/locks/" ++ lockID) none
  match c.out with
  | .fault => ⟨c.sent, .fault⟩
  | .ret (_, some err) => ⟨c.sent, .ret (none, some err)⟩
  | .ret (none, none) => ⟨c.sent, .fault⟩
  | .ret (some resp, none) =>
    match w.DecodeLockDetails resp.Body with
    | .error e => ⟨c.sent, .ret (none, some (.ErrorGeneric e))⟩
    | .ok det => ⟨c.sent, .ret (some det, none)⟩

/-- GetLockStatus returns current lock status. -/
def APIProvider.GetLockStatus (w : World) (p : APIProvider) (lockID : String) :
    Exec (Option LockStatus × Option GoError) :=
  let c := doAPICall w p.auth "GET" ("/locks/" ++ lockID ++ "/status") none
  match c.out with
  | .fault => ⟨c.sent, .fault⟩
  | .ret (_, some err) => ⟨c.sent, .ret (none, some err)⟩
  | .ret (none, none) => ⟨c.sent, .fault⟩
  | .ret (some resp, none) =>
    match w.DecodeLockStatus resp.Body with
    | .error e => ⟨c.sent, .ret (none, some (.ErrorGeneric e))⟩
    | .ok st => ⟨c.sent, .ret (some st, none)⟩

/-- Lock/unlock the lock. -/
def APIProvider.lockOperation (w : World) (p : APIProvider) (lockID op : String) :
    Exec (Option GoError) :=
  match w.MarshalOpTimeoutRequest { TimeoutSeconds := 30 } with
  | .error e => ⟨[], .ret (some (.ErrorGeneric e))⟩
  | .ok b =>
    let c := doAPICall w p.auth "PUT" ("/remoteoperate/" ++ lockID ++ "/" ++ op) (some b)
    match c.out with
    | .fault => ⟨c.sent, .fault⟩
    | .ret (_, err) => ⟨c.sent, .ret err⟩

/-- OpenLock unlocks the lock. -/
def APIProvider.OpenLock (w : World) (p : APIProvider) (lockID : String) :
    Exec (Option GoError) :=
  p.lockOperation w lockID "unlock"

/-- CloseLock locks the lock. -/
def APIProvider.CloseLock (w : World) (p : APIProvider) (lockID : String) :
    Exec (Option GoError) :=
  p.lockOperation w lockID "lock"

/-! ## auth.go: the authentication state machine -/

/-- NewAuthenticator creates a new Authenticator. -/
def NewAuthenticator (authMethod : Int) (user password accessToken installID : String) :
    Authenticator :=
  let auth : Authenticator :=
    { UserName := user
      Password := password
      AuthMethod := authMethod
      State :=
        { InstallID := installID
          AccessToken := accessToken
          State := AuthRequiresAuthentication } }
  if "" ≠ accessToken then
    { auth with State := { auth.State with State := AuthAuthenticated } }
  else auth

/-- The three-way branch at the end of `Authenticate`. -/
def loginState (authResp : authResponse) : Int :=
  if !authResp.Password then AuthBadPassword
  else if !authResp.InstallID then AuthRequiresValidation
  else AuthAuthenticated

/-- Authenticate makes an attempt to authenticate user. -/
def Authenticator.Authenticate (w : World) (a : Authenticator) : AuthExec :=
  if AuthAuthenticated = a.State.State then ⟨[], a, .ret none⟩
  else
    let aReq : authRequest :=
      { Identifier := w.AuthMethodString a.AuthMethod ++ ":" ++ a.UserName
        InstallID := a.State.InstallID
        Password := a.Password }
    match w.MarshalAuthRequest aReq with
    | .error e => ⟨[], a, .ret (some (.ErrorGeneric e))⟩
    | .ok b =>
      let c := doAPICall w a "POST" "/session" (some b)
      match c.out with
      | .fault => ⟨c.sent, a, .fault⟩
      | .ret (_, some err) => ⟨c.sent, a, .ret (some err)⟩
      | .ret (none, none) => ⟨c.sent, a, .fault⟩
      | .ret (some resp, none) =>
        match w.DecodeAuthResponse resp.Body with
        | .error e => ⟨c.sent, a, .ret (some (.ErrorGeneric e))⟩
        | .ok authResp =>
          let token := resp.Header.Get tokenHeader
          if "" = token then ⟨c.sent, a, .ret (some (.ErrorGeneric "empty token"))⟩
          else
            ⟨c.sent,
              { a with State :=
                  { a.State with AccessToken := token, State := loginState authResp } },
              .ret none⟩

/-- SendVerificationCode requests new verification code to either email or phone. -/
def Authenticator.SendVerificationCode (w : World) (a : Authenticator) : AuthExec :=
  match w.MarshalSendRequest { UserName := a.UserName } with
  | .error e => ⟨[], a, .ret (some (.ErrorGeneric e))⟩
  | .ok b =>
    let c := doAPICall w a "POST" ("/validation/" ++ w.AuthMethodString a.AuthMethod) (some b)
    match c.out with
    | .fault => ⟨c.sent, a, .fault⟩
    | .ret (_, some err) => ⟨c.sent, a, .ret (some err)⟩
    | .ret (none, none) => ⟨c.sent, a, .fault⟩
    | .ret (some _, none) => ⟨c.sent, a, .ret none⟩

/-- ValidateCode performs the auth code validation. -/
def Authenticator.ValidateCode (w : World) (a : Authenticator) (code : String) : AuthExec :=
  let req := [(w.AuthMethodString a.AuthMethod, a.UserName), ("code", code)]
  match w.MarshalStringMap req with
  | .error e => ⟨[], a, .ret (some (.ErrorGeneric e))⟩
  | .ok b =>
    let c := doAPICall w a "POST" ("/validate/" ++ w.AuthMethodString a.AuthMethod) (some b)
    match c.out with
    | .fault => ⟨c.sent, a, .fault⟩
    | .ret (_, some err) => ⟨c.sent, a, .ret (some err)⟩
    | .ret (none, none) => ⟨c.sent, a, .fault⟩
    | .ret (some _, none) => ⟨c.sent, a, .ret none⟩

/-! ## Sample worlds, for evaluating the definitions on concrete exchanges -/

def isHexChar (c : Char) : Bool :=
  c.isDigit || "abcdefABCDEF".data.contains c

/-- Whether a percent sign is not followed by two hexadecimal digits, which Go
`url.Parse` rejects in a path as an invalid URL escape. -/
def badEscape : List Char → Bool
  | '%' :: a :: b :: rest => if isHexChar a && isHexChar b then badEscape rest else true
  | '%' :: _ => true
  | _ :: rest => badEscape rest
  | [] => false

/-- Body of a login response with both checks passed. -/
def bodyBothVerified : String := "\x7b\"vPassword\":true,\"vInstallId\":true\x7d"

/-- Body of a login response with a rejected password and a verified install id. -/
def bodyBadPassword : String := "\x7b\"vPassword\":false,\"vInstallId\":true\x7d"

/-- Body of a login response with an accepted password and an unverified install id. -/
def bodyNeedsValidation : String := "\x7b\"vPassword\":true,\"vInstallId\":false\x7d"

/-- The list-locks body of the round-trip example of the specification. -/
def bodyOneLock : String := "\x7b\"L1\":\x7b\"LockName\":\"Front\"\x7d\x7d"

/-- A list-locks body with a JSON null as the value of a key. -/
def bodyNullLock : String := "\x7b\"L1\":null\x7d"

/-- A world whose transport answers every request with `reply`. URL parsing rejects
malformed percent escapes and nothing else; marshalling never fails; the decoders know
the sample bodies above, as `encoding/json` decodes them, and reject any other body. -/
def sampleWorld (reply : Except String Response) : World where
  ParseURL u := if badEscape u.data then .error "invalid URL escape" else .ok u
  Do _ := reply
  AuthMethodString m := if m = 0 then "phone" else if m = 1 then "email" else "other"
  MarshalAuthRequest r :=
    .ok ("\x7b\"identifier\":\"" ++ r.Identifier ++ "\",\"install_id\":\"" ++ r.InstallID
      ++ "\",\"password\":\"" ++ r.Password ++ "\"\x7d")
  MarshalSendRequest r := .ok ("\x7b\"value\":\"" ++ r.UserName ++ "\"\x7d")
  MarshalStringMap _ := .ok "\x7b\x7d"
  MarshalOpTimeoutRequest _ := .ok "\x7b\"timeout\":30\x7d"
  DecodeAuthResponse body :=
    if body = bodyBothVerified then .ok ⟨"", true, true⟩
    else if body = bodyBadPassword then .ok ⟨"", false, true⟩
    else if body = bodyNeedsValidation then .ok ⟨"", true, false⟩
    else .error "unexpected EOF"
  DecodeLocks body :=
    if body = bodyOneLock then .ok [("L1", some ⟨"", "Front", "", "", ""⟩)]
    else if body = bodyNullLock then .ok [("L1", none)]
    else .error "unexpected EOF"
  DecodeLockDetails _ := .error "unexpected EOF"
  DecodeLockStatus _ := .error "unexpected EOF"

/-- A response with the given status, token header value and body. -/
def sampleResponse (status : Int) (token body : String) : Response :=
  { StatusCode := status, Header := (Header.mk []).Add tokenHeader token, Body := body }

/-- A response with the given status and body and no header at all. -/
def bareResponse (status : Int) (body : String) : Response :=
  { StatusCode := status, Header := ⟨[]⟩, Body := body }

/-- An authenticator in the given phase, holding the given token. -/
def sampleAuth (token : String) (phase : Int) : Authenticator :=
  { UserName := "+15550100", Password := "secret", AuthMethod := AuthMethPhone,
    State := { InstallID := "gohomelock1", AccessToken := token, State := phase } }

/-! ## Lemmas on the request pipeline -/

/-- The six `Add` calls of `addHeaders`, spelled out on the entry list. -/
theorem addHeaders_entries (r : Request) (token : String) :
    (addHeaders r token).Header.entries =
      r.Header.entries ++
        ([("Accept-Version", "0.0.1"),
          ("X-August-Api-Key", "79fd0eb6-381d-4adf-95a0-47721289d1d9"),
          ("X-Kease-Api-Key", "79fd0eb6-381d-4adf-95a0-47721289d1d9"),
          ("X-Kease-Api-Key", "79fd0eb6-381d-4adf-95a0-47721289d1d9"),
          ("Content-Type", "application/json")] ++
          if token = "" then [] else [("X-August-Access-Token", token)]) := by
  have k1 : CanonicalMIMEHeaderKey "Accept-Version" = "Accept-Version" := by decide
  have k2 : CanonicalMIMEHeaderKey "x-august-api-key" = "X-August-Api-Key" := by decide
  have k3 : CanonicalMIMEHeaderKey "x-kease-api-key" = "X-Kease-Api-Key" := by decide
  have k4 : CanonicalMIMEHeaderKey "Content-Type" = "Content-Type" := by decide
  have k5 : CanonicalMIMEHeaderKey tokenHeader = "X-August-Access-Token" := by decide
  by_cases ht : token = ""
  · subst ht
    simp [addHeaders, Header.Add, k1, k2, k3, k4]
  · have ht2 : ¬ "" = token := fun h => ht h.symm
    simp [addHeaders, Header.Add, k1, k2, k3, k4, k5, ht, ht2]

/-- A request that `http.NewRequest` builds has no header entry. -/
theorem NewRequest_header (w : World) (method url : String) (body : Option String)
    (req : Request) (h : NewRequest w method url body = .ok req) :
    req.Header.entries = [] := by
  simp only [NewRequest] at h
  repeat' split at h
  all_goals first | (injection h with h; subst h; rfl) | cases h

/-- When the request cannot be built, `doAPICall` sends nothing and faults. -/
theorem doAPICall_no_request (w : World) (a : Authenticator) (method url : String)
    (reader : Option String) (e : String)
    (hreq : NewRequest w method (apiBase ++ url) reader = .error e) :
    doAPICall w a method url reader = ⟨[], .fault⟩ := by
  simp only [doAPICall, hreq]

/-- A transport error comes back as it is, with no response. -/
theorem doAPICall_transport_error (w : World) (a : Authenticator) (method url : String)
    (reader : Option String) (req : Request) (e : String)
    (hreq : NewRequest w method (apiBase ++ url) reader = .ok req)
    (hdo : w.Do (addHeaders req a.State.AccessToken) = .error e) :
    doAPICall w a method url reader =
      ⟨[addHeaders req a.State.AccessToken], .ret (none, some (.external e))⟩ := by
  simp only [doAPICall, hreq, hdo]

/-- The classification of a response by its status code. -/
theorem doAPICall_response (w : World) (a : Authenticator) (method url : String)
    (reader : Option String) (req : Request) (resp : Response)
    (hreq : NewRequest w method (apiBase ++ url) reader = .ok req)
    (hdo : w.Do (addHeaders req a.State.AccessToken) = .ok resp) :
    doAPICall w a method url reader =
      ⟨[addHeaders req a.State.AccessToken],
        if resp.StatusCode = 200 then .ret (some resp, none)
        else if resp.StatusCode = 403 ∨ resp.StatusCode = 401 then
          .ret (none, some .ErrorUnAuth)
        else .ret (none, some (.ErrorGeneric "bad response"))⟩ := by
  simp only [doAPICall, hreq, hdo, StatusOK, StatusForbidden, StatusUnauthorized]
  by_cases h200 : resp.StatusCode = 200
  · simp [h200]
  · by_cases h4 : resp.StatusCode = 403 ∨ resp.StatusCode = 401
    · simp [h200, h4]
    · simp [h200, h4]

/-- A 200 response comes back with no error. -/
theorem doAPICall_ok (w : World) (a : Authenticator) (method url : String)
    (reader : Option String) (req : Request) (resp : Response)
    (hreq : NewRequest w method (apiBase ++ url) reader = .ok req)
    (hdo : w.Do (addHeaders req a.State.AccessToken) = .ok resp)
    (hs : resp.StatusCode = 200) :
    doAPICall w a method url reader =
      ⟨[addHeaders req a.State.AccessToken], .ret (some resp, none)⟩ := by
  rw [doAPICall_response w a method url reader req resp hreq hdo]
  simp [hs]

/-- Every request that `doAPICall` hands to the transport is the freshly built request
with the default headers and the token of the authenticator at the time of the call. -/
theorem doAPICall_sent (w : World) (a : Authenticator) (method url : String)
    (reader : Option String) (r : Request)
    (hr : r ∈ (doAPICall w a method url reader).sent) :
    ∃ req, NewRequest w method (apiBase ++ url) reader = .ok req ∧
      r = addHeaders req a.State.AccessToken := by
  cases hreq : NewRequest w method (apiBase ++ url) reader with
  | error e =>
    rw [doAPICall_no_request w a method url reader e hreq] at hr
    simp at hr
  | ok req =>
    refine ⟨req, rfl, ?_⟩
    cases hdo : w.Do (addHeaders req a.State.AccessToken) with
    | error e =>
      rw [doAPICall_transport_error w a method url reader req e hreq hdo] at hr
      simpa using hr
    | ok resp =>
      rw [doAPICall_response w a method url reader req resp hreq hdo] at hr
      simpa using hr

/-- What `Authenticate` does once the login exchange has brought back a 200 response:
decode, then read the token header, then store token and phase. -/
theorem Authenticate_on_200 (w : World) (a : Authenticator) (b : String) (req : Request)
    (resp : Response)
    (hphase : a.State.State ≠ AuthAuthenticated)
    (hm : w.MarshalAuthRequest
        { Identifier := w.AuthMethodString a.AuthMethod ++ ":" ++ a.UserName
          InstallID := a.State.InstallID
          Password := a.Password } = .ok b)
    (hreq : NewRequest w "POST" (apiBase ++ "/session") (some b) = .ok req)
    (hdo : w.Do (addHeaders req a.State.AccessToken) = .ok resp)
    (hs : resp.StatusCode = 200) :
    a.Authenticate w =
      match w.DecodeAuthResponse resp.Body with
      | .error e =>
        ⟨[addHeaders req a.State.AccessToken], a, .ret (some (.ErrorGeneric e))⟩
      | .ok authResp =>
        if "" = resp.Header.Get tokenHeader then
          ⟨[addHeaders req a.State.AccessToken], a,
            .ret (some (.ErrorGeneric "empty token"))⟩
        else
          ⟨[addHeaders req a.State.AccessToken],
            { a with State :=
                { a.State with
                  AccessToken := resp.Header.Get tokenHeader
                  State := loginState authResp } },
            .ret none⟩ := by
  have hne : ¬ AuthAuthenticated = a.State.State := fun h => hphase h.symm
  simp only [Authenticator.Authenticate, hne, if_false, hm,
    doAPICall_ok w a "POST" "/session" (some b) req resp hreq hdo hs]

/-- A header without an entry under a key yields the empty string for it. -/
theorem Header.Get_of_Values_nil (h : Header) (key : String)
    (hv : h.Values key = []) : h.Get key = "" := by
  simp only [Header.Values, List.map_eq_nil_iff, List.filter_eq_nil_iff] at hv
  have hnone : h.entries.find? (fun e => e.1 == CanonicalMIMEHeaderKey key) = none := by
    rw [List.find?_eq_none]
    exact hv
  simp only [Header.Get, hnone]

/-- The `range` loop over a map without nil values appends one record per entry, each
with its key as ID and the other fields as decoded. -/
theorem rangeLocks_records (recs : List (String × Lock)) (acc : List Lock) :
    rangeLocks (recs.map (fun e => (e.1, some e.2))) acc =
      .ret (acc ++ recs.map
        (fun e => (⟨e.1, e.2.Name, e.2.UserType, e.2.HouseID, e.2.HouseName⟩ : Lock))) := by
  induction recs generalizing acc with
  | nil => simp [rangeLocks]
  | cons e rest ih =>
    simp only [List.map_cons, rangeLocks]
    rw [ih]
    simp

/-- The `range` loop faults on a map that has a nil value. -/
theorem rangeLocks_nil_value (m : List (String × Option Lock)) (acc : List Lock)
    (k : String) (hk : (k, none) ∈ m) : rangeLocks m acc = .fault := by
  induction m generalizing acc with
  | nil => simp at hk
  | cons e rest ih =>
    obtain ⟨k1, v1⟩ := e
    cases v1 with
    | none => simp [rangeLocks]
    | some v =>
      simp only [rangeLocks]
      apply ih
      simpa using hk

/-- `Authenticate` either leaves the authenticator as it was, or returns no error
having stored a non-empty token and the phase that the login response decides. -/
theorem Authenticate_auth_cases (w : World) (a : Authenticator) :
    (a.Authenticate w).auth = a ∨
      ∃ (authResp : authResponse) (T : String), T ≠ "" ∧
        (a.Authenticate w).out = .ret none ∧
        (a.Authenticate w).auth =
          { a with State :=
              { a.State with AccessToken := T, State := loginState authResp } } := by
  simp only [Authenticator.Authenticate]
  repeat' split
  all_goals first
    | exact Or.inl rfl
    | exact Or.inr ⟨_, _, fun h => by simp_all, rfl, rfl⟩

/-- `SendVerificationCode` never changes the authenticator. -/
theorem SendVerificationCode_auth (w : World) (a : Authenticator) :
    (a.SendVerificationCode w).auth = a := by
  simp only [Authenticator.SendVerificationCode]
  repeat' split
  all_goals rfl

/-- `ValidateCode` never changes the authenticator. -/
theorem ValidateCode_auth (w : World) (a : Authenticator) (code : String) :
    (a.ValidateCode w code).auth = a := by
  simp only [Authenticator.ValidateCode]
  repeat' split
  all_goals rfl

/-- `Authenticate` changes the authenticator only at the end of a login exchange that
brought back status 200, a decodable body and a non-empty token header value: it then
returns no error and stores that token and the phase the body decides. -/
theorem Authenticate_changes_only_on_login (w : World) (a : Authenticator) :
    (a.Authenticate w).auth = a ∨
      ∃ (b : String) (req : Request) (resp : Response) (authResp : authResponse),
        w.MarshalAuthRequest
          { Identifier := w.AuthMethodString a.AuthMethod ++ ":" ++ a.UserName
            InstallID := a.State.InstallID
            Password := a.Password } = .ok b ∧
        NewRequest w "POST" (apiBase ++ "/session") (some b) = .ok req ∧
        w.Do (addHeaders req a.State.AccessToken) = .ok resp ∧
        resp.StatusCode = 200 ∧
        w.DecodeAuthResponse resp.Body = .ok authResp ∧
        resp.Header.Get tokenHeader ≠ "" ∧
        (a.Authenticate w).out = .ret none ∧
        (a.Authenticate w).auth =
          { a with State :=
              { a.State with
                AccessToken := resp.Header.Get tokenHeader
                State := loginState authResp } } := by
  by_cases hph : a.State.State = AuthAuthenticated
  · left
    simp [Authenticator.Authenticate, hph]
  · have hne : ¬ AuthAuthenticated = a.State.State := fun h => hph h.symm
    cases hm : w.MarshalAuthRequest
        { Identifier := w.AuthMethodString a.AuthMethod ++ ":" ++ a.UserName
          InstallID := a.State.InstallID
          Password := a.Password } with
    | error e =>
      left
      simp only [Authenticator.Authenticate, hne, if_false, hm]
    | ok b =>
      cases hreq : NewRequest w "POST" (apiBase ++ "/session") (some b) with
      | error e =>
        left
        simp only [Authenticator.Authenticate, hne, if_false, hm,
          doAPICall_no_request w a "POST" "/session" (some b) e hreq]
      | ok req =>
        cases hdo : w.Do (addHeaders req a.State.AccessToken) with
        | error e =>
          left
          simp only [Authenticator.Authenticate, hne, if_false, hm,
            doAPICall_transport_error w a "POST" "/session" (some b) req e hreq hdo]
        | ok resp =>
          by_cases hs : resp.StatusCode = 200
          · rw [Authenticate_on_200 w a b req resp hph hm hreq hdo hs]
            cases hdec : w.DecodeAuthResponse resp.Body with
            | error e =>
              left
              rfl
            | ok authResp =>
              by_cases htok : "" = resp.Header.Get tokenHeader
              · left
                simp only [htok, if_true]
              · right
                refine ⟨b, req, resp, authResp, rfl, hreq, hdo, hs, hdec,
                  fun h => htok h.symm, ?_, ?_⟩
                · simp only [htok, if_false]
                · simp only [htok, if_false]
          · left
            by_cases h4 : resp.StatusCode = 403 ∨ resp.StatusCode = 401
            · simp only [Authenticator.Authenticate, hne, if_false, hm,
                doAPICall_response w a "POST" "/session" (some b) req resp hreq hdo, hs,
                h4, if_true]
            · simp only [Authenticator.Authenticate, hne, if_false, hm,
                doAPICall_response w a "POST" "/session" (some b) req resp hreq hdo, hs,
                h4]

/-! ## The claims -/

/-- C2: an authenticator whose phase is Authenticated, in particular one that
`NewAuthenticator` builds from a non-empty access token, makes `Authenticate` send no
request, return no error, and leave the authenticator (access token, phase, install id)
as it was. -/
theorem Authenticate_noop_when_authenticated (w : World) :
    (∀ a : Authenticator, a.State.State = AuthAuthenticated →
      (a.Authenticate w).sent = [] ∧ (a.Authenticate w).out = .ret none ∧
      (a.Authenticate w).auth = a) ∧
    (∀ (m : Int) (user password token installID : String), token ≠ "" →
      (NewAuthenticator m user password token installID).State.State = AuthAuthenticated ∧
      ((NewAuthenticator m user password token installID).Authenticate w).sent = [] ∧
      ((NewAuthenticator m user password token installID).Authenticate w).out = .ret none ∧
      ((NewAuthenticator m user password token installID).Authenticate w).auth =
        NewAuthenticator m user password token installID) := by
  have key : ∀ a : Authenticator, a.State.State = AuthAuthenticated →
      (a.Authenticate w).sent = [] ∧ (a.Authenticate w).out = .ret none ∧
      (a.Authenticate w).auth = a := by
    intro a h
    simp [Authenticator.Authenticate, h]
  refine ⟨key, ?_⟩
  intro m user password token installID ht
  have hne : ¬ "" = token := fun h => ht h.symm
  have hphase :
      (NewAuthenticator m user password token installID).State.State = AuthAuthenticated := by
    simp [NewAuthenticator, hne]
  exact ⟨hphase, key _ hphase⟩

/-- An authenticator built by `NewAuthenticator` from the token "T0" stays as it is under
`Authenticate`, and nothing is sent, even in a world whose transport always fails. -/
theorem Authenticate_noop_when_authenticated_witness :
    (NewAuthenticator AuthMethEmail "user@example.com" "secret" "T0" "install-1").State.State
        = AuthAuthenticated ∧
      ((NewAuthenticator AuthMethEmail "user@example.com" "secret" "T0"
          "install-1").Authenticate (sampleWorld (.error "no route to host"))).sent = [] ∧
      ((NewAuthenticator AuthMethEmail "user@example.com" "secret" "T0"
          "install-1").Authenticate (sampleWorld (.error "no route to host"))).out
        = .ret none ∧
      ((NewAuthenticator AuthMethEmail "user@example.com" "secret" "T0"
          "install-1").Authenticate (sampleWorld (.error "no route to host"))).auth
        = NewAuthenticator AuthMethEmail "user@example.com" "secret" "T0" "install-1" :=
  (Authenticate_noop_when_authenticated (sampleWorld (.error "no route to host"))).2
    AuthMethEmail "user@example.com" "secret" "T0" "install-1" (by decide)

/-- C3: when the transport answers with status s, `doAPICall` returns the response and
no error exactly when s = 200, returns ErrorUnAuth (and then no ErrorGeneric) exactly
when s is 401 or 403, and returns ErrorGeneric "bad response" exactly for every other
s; a transport error is returned as it is, with no response. -/
theorem doAPICall_classifies_status (w : World) (a : Authenticator) (method url : String)
    (reader : Option String) (req : Request)
    (hreq : NewRequest w method (apiBase ++ url) reader = .ok req) :
    (∀ resp, w.Do (addHeaders req a.State.AccessToken) = .ok resp →
      ((doAPICall w a method url reader).out = .ret (some resp, none) ↔
        resp.StatusCode = 200) ∧
      ((doAPICall w a method url reader).out = .ret (none, some .ErrorUnAuth) ↔
        (resp.StatusCode = 401 ∨ resp.StatusCode = 403)) ∧
      ((resp.StatusCode = 401 ∨ resp.StatusCode = 403) →
        ∀ m, (doAPICall w a method url reader).out ≠ .ret (none, some (.ErrorGeneric m))) ∧
      ((doAPICall w a method url reader).out =
          .ret (none, some (.ErrorGeneric "bad response")) ↔
        (resp.StatusCode ≠ 200 ∧ resp.StatusCode ≠ 401 ∧ resp.StatusCode ≠ 403))) ∧
    (∀ e, w.Do (addHeaders req a.State.AccessToken) = .error e →
      (doAPICall w a method url reader).out = .ret (none, some (.external e))) := by
  constructor
  · intro resp hdo
    rw [doAPICall_response w a method url reader req resp hreq hdo]
    by_cases h200 : resp.StatusCode = 200
    · simp [h200]
    · by_cases h403 : resp.StatusCode = 403
      · simp [h403]
      · by_cases h401 : resp.StatusCode = 401
        · simp [h401]
        · simp [h200, h403, h401]
  · intro e hdo
    rw [doAPICall_transport_error w a method url reader req e hreq hdo]

/-- A 401 answer to a list-locks call is classified as ErrorUnAuth. -/
theorem doAPICall_classifies_status_witness :
    (doAPICall (sampleWorld (.ok (bareResponse 401 ""))) (sampleAuth "T1" AuthAuthenticated)
      "GET" "/users/locks/mine" none).out = .ret (none, some .ErrorUnAuth) :=
  (((doAPICall_classifies_status (sampleWorld (.ok (bareResponse 401 "")))
      (sampleAuth "T1" AuthAuthenticated) "GET" "/users/locks/mine" none
      { Method := "GET", URL := apiBase ++ "/users/locks/mine", Header := ⟨[]⟩, Body := none }
      rfl).1 (bareResponse 401 "") rfl).2.1).mpr (Or.inl rfl)

/-- C4 (as the code behaves): every request that `doAPICall` sends carries, in this
order, Accept-Version 0.0.1, the API key once under x-august-api-key and twice under
x-kease-api-key, Content-Type application/json, and the access token the authenticator
holds at the call under x-august-access-token exactly when that token is non-empty. So
x-kease-api-key has two entries, not one. -/
theorem doAPICall_request_headers (w : World) (a : Authenticator) (method url : String)
    (reader : Option String) (r : Request)
    (hr : r ∈ (doAPICall w a method url reader).sent) :
    r.Header.entries =
        [("Accept-Version", "0.0.1"),
          ("X-August-Api-Key", "79fd0eb6-381d-4adf-95a0-47721289d1d9"),
          ("X-Kease-Api-Key", "79fd0eb6-381d-4adf-95a0-47721289d1d9"),
          ("X-Kease-Api-Key", "79fd0eb6-381d-4adf-95a0-47721289d1d9"),
          ("Content-Type", "application/json")] ++
          (if a.State.AccessToken = "" then []
            else [("X-August-Access-Token", a.State.AccessToken)]) ∧
      r.Header.Values "x-august-api-key" = ["79fd0eb6-381d-4adf-95a0-47721289d1d9"] ∧
      r.Header.Values "x-kease-api-key" =
        ["79fd0eb6-381d-4adf-95a0-47721289d1d9", "79fd0eb6-381d-4adf-95a0-47721289d1d9"] ∧
      r.Header.Values tokenHeader =
        (if a.State.AccessToken = "" then [] else [a.State.AccessToken]) := by
  obtain ⟨req, hreq, rfl⟩ := doAPICall_sent w a method url reader r hr
  have hent := addHeaders_entries req a.State.AccessToken
  rw [NewRequest_header w method (apiBase ++ url) reader req hreq, List.nil_append] at hent
  have k2 : CanonicalMIMEHeaderKey "x-august-api-key" = "X-August-Api-Key" := by decide
  have k3 : CanonicalMIMEHeaderKey "x-kease-api-key" = "X-Kease-Api-Key" := by decide
  have k5 : CanonicalMIMEHeaderKey tokenHeader = "X-August-Access-Token" := by decide
  refine ⟨hent, ?_, ?_, ?_⟩
  · simp only [Header.Values, hent, k2]
    by_cases ht : a.State.AccessToken = "" <;> simp [ht, List.filter]
  · simp only [Header.Values, hent, k3]
    by_cases ht : a.State.AccessToken = "" <;> simp [ht, List.filter]
  · simp only [Header.Values, hent, k5]
    by_cases ht : a.State.AccessToken = "" <;> simp [ht, List.filter]

/-- The list-locks request of an authenticator holding "T1" has two entries under
x-kease-api-key. -/
theorem doAPICall_request_headers_witness :
    (addHeaders
        { Method := "GET", URL := apiBase ++ "/users/locks/mine", Header := ⟨[]⟩, Body := none }
        "T1").Header.Values "x-kease-api-key" =
      ["79fd0eb6-381d-4adf-95a0-47721289d1d9", "79fd0eb6-381d-4adf-95a0-47721289d1d9"] :=
  (doAPICall_request_headers (sampleWorld (.ok (bareResponse 200 bodyOneLock)))
    (sampleAuth "T1" AuthAuthenticated) "GET" "/users/locks/mine" none
    (addHeaders
      { Method := "GET", URL := apiBase ++ "/users/locks/mine", Header := ⟨[]⟩, Body := none }
      "T1")
    (by decide)).2.2.1

/-- C1: for an authenticator whose phase is not Authenticated, a login exchange that
brings back status 200, a body decoding to (vPassword, vInstallId) and a non-empty
token header value T makes `Authenticate` return no error, store T as the access token
in every branch, and set the phase to BadPassword when vPassword is false (whatever
vInstallId is), else to RequiresValidation when vInstallId is false, else to
Authenticated; the install id stays. -/
theorem Authenticate_login_transition (w : World) (a : Authenticator) (b : String)
    (req : Request) (resp : Response) (authResp : authResponse) (T : String)
    (hphase : a.State.State ≠ AuthAuthenticated)
    (hm : w.MarshalAuthRequest
        { Identifier := w.AuthMethodString a.AuthMethod ++ ":" ++ a.UserName
          InstallID := a.State.InstallID
          Password := a.Password } = .ok b)
    (hreq : NewRequest w "POST" (apiBase ++ "/session") (some b) = .ok req)
    (hdo : w.Do (addHeaders req a.State.AccessToken) = .ok resp)
    (hs : resp.StatusCode = 200)
    (hdec : w.DecodeAuthResponse resp.Body = .ok authResp)
    (htok : resp.Header.Get tokenHeader = T) (hT : T ≠ "") :
    (a.Authenticate w).out = .ret none ∧
      (a.Authenticate w).auth.State.AccessToken = T ∧
      (authResp.Password = false →
        (a.Authenticate w).auth.State.State = AuthBadPassword) ∧
      (authResp.Password = true → authResp.InstallID = false →
        (a.Authenticate w).auth.State.State = AuthRequiresValidation) ∧
      (authResp.Password = true → authResp.InstallID = true →
        (a.Authenticate w).auth.State.State = AuthAuthenticated) ∧
      (a.Authenticate w).auth.State.InstallID = a.State.InstallID := by
  subst htok
  have hne : ¬ "" = resp.Header.Get tokenHeader := fun h => hT h.symm
  rw [Authenticate_on_200 w a b req resp hphase hm hreq hdo hs]
  simp only [hdec, hne, if_false]
  refine ⟨trivial, trivial, ?_, ?_, ?_, trivial⟩
  · intro hp
    simp [loginState, hp]
  · intro hp hi
    simp [loginState, hp, hi]
  · intro hp hi
    simp [loginState, hp, hi]

/-- A first login answered with a rejected password, a verified install id and the
token "T1": no error, "T1" stored, phase BadPassword, install id kept. -/
theorem Authenticate_login_transition_witness :
    ((sampleAuth "" AuthRequiresAuthentication).Authenticate
        (sampleWorld (.ok (sampleResponse 200 "T1" bodyBadPassword)))).out = .ret none ∧
      ((sampleAuth "" AuthRequiresAuthentication).Authenticate
        (sampleWorld (.ok (sampleResponse 200 "T1" bodyBadPassword)))).auth.State.AccessToken
        = "T1" ∧
      ((sampleAuth "" AuthRequiresAuthentication).Authenticate
        (sampleWorld (.ok (sampleResponse 200 "T1" bodyBadPassword)))).auth.State.State
        = AuthBadPassword ∧
      ((sampleAuth "" AuthRequiresAuthentication).Authenticate
        (sampleWorld (.ok (sampleResponse 200 "T1" bodyBadPassword)))).auth.State.InstallID
        = "gohomelock1" :=
  have h := Authenticate_login_transition
    (sampleWorld (.ok (sampleResponse 200 "T1" bodyBadPassword)))
    (sampleAuth "" AuthRequiresAuthentication)
    "\x7b\"identifier\":\"phone:+15550100\",\"install_id\":\"gohomelock1\",\"password\":\"secret\"\x7d"
    { Method := "POST", URL := apiBase ++ "/session", Header := ⟨[]⟩,
      Body := some
        "\x7b\"identifier\":\"phone:+15550100\",\"install_id\":\"gohomelock1\",\"password\":\"secret\"\x7d" }
    (sampleResponse 200 "T1" bodyBadPassword) ⟨"", false, true⟩ "T1"
    (by decide) rfl rfl rfl rfl rfl (by decide) (by decide)
  ⟨h.1, h.2.1, h.2.2.1 rfl, h.2.2.2.2.2⟩

/-- C5: for an authenticator whose phase is not Authenticated, a login response with
status 200 and a decodable body whose token header is absent or empty makes
`Authenticate` return ErrorGeneric "empty token", whatever vPassword and vInstallId
are, and leaves the authenticator (access token and phase included) as it was. -/
theorem Authenticate_empty_token (w : World) (a : Authenticator) (b : String)
    (req : Request) (resp : Response) (authResp : authResponse)
    (hphase : a.State.State ≠ AuthAuthenticated)
    (hm : w.MarshalAuthRequest
        { Identifier := w.AuthMethodString a.AuthMethod ++ ":" ++ a.UserName
          InstallID := a.State.InstallID
          Password := a.Password } = .ok b)
    (hreq : NewRequest w "POST" (apiBase ++ "/session") (some b) = .ok req)
    (hdo : w.Do (addHeaders req a.State.AccessToken) = .ok resp)
    (hs : resp.StatusCode = 200)
    (hdec : w.DecodeAuthResponse resp.Body = .ok authResp)
    (htok : resp.Header.Values tokenHeader = [] ∨ resp.Header.Get tokenHeader = "") :
    (a.Authenticate w).out = .ret (some (.ErrorGeneric "empty token")) ∧
      (a.Authenticate w).auth = a ∧
      (a.Authenticate w).auth.State.AccessToken = a.State.AccessToken ∧
      (a.Authenticate w).auth.State.State = a.State.State := by
  have hget : resp.Header.Get tokenHeader = "" := by
    rcases htok with h | h
    · exact Header.Get_of_Values_nil resp.Header tokenHeader h
    · exact h
  rw [Authenticate_on_200 w a b req resp hphase hm hreq hdo hs]
  simp [hdec, hget]

/-- A login answered 200 with both checks passed but without any token header: the
error is "empty token" and the authenticator keeps its old token and phase. -/
theorem Authenticate_empty_token_witness :
    ((sampleAuth "old" AuthRequiresValidation).Authenticate
        (sampleWorld (.ok (bareResponse 200 bodyBothVerified)))).out
        = .ret (some (.ErrorGeneric "empty token")) ∧
      ((sampleAuth "old" AuthRequiresValidation).Authenticate
        (sampleWorld (.ok (bareResponse 200 bodyBothVerified)))).auth
        = sampleAuth "old" AuthRequiresValidation :=
  have h := Authenticate_empty_token
    (sampleWorld (.ok (bareResponse 200 bodyBothVerified)))
    (sampleAuth "old" AuthRequiresValidation)
    "\x7b\"identifier\":\"phone:+15550100\",\"install_id\":\"gohomelock1\",\"password\":\"secret\"\x7d"
    { Method := "POST", URL := apiBase ++ "/session", Header := ⟨[]⟩,
      Body := some
        "\x7b\"identifier\":\"phone:+15550100\",\"install_id\":\"gohomelock1\",\"password\":\"secret\"\x7d" }
    (bareResponse 200 bodyBothVerified) ⟨"", true, true⟩
    (by decide) rfl rfl rfl rfl rfl (Or.inl rfl)
  ⟨h.1, h.2.1⟩

/-- C6: on a 200 response whose body fails to decode with message msg, each of
`GetLocks`, `GetLockDetails`, `GetLockStatus` returns no result value and
ErrorGeneric msg, and `Authenticate` returns ErrorGeneric msg and leaves the
authenticator (access token and phase included) as it was. -/
theorem decode_failure_is_ErrorGeneric (w : World) (msg : String) :
    (∀ (p : APIProvider) (req : Request) (resp : Response),
      NewRequest w "GET" (apiBase ++ "/users/locks/mine") none = .ok req →
      w.Do (addHeaders req p.auth.State.AccessToken) = .ok resp →
      resp.StatusCode = 200 → w.DecodeLocks resp.Body = .error msg →
      (p.GetLocks w).out = .ret (none, some (.ErrorGeneric msg)) ∧
        (GoError.ErrorGeneric msg).Error = msg) ∧
    (∀ (p : APIProvider) (lockID : String) (req : Request) (resp : Response),
      NewRequest w "GET" (apiBase ++ ("/locks/" ++ lockID)) none = .ok req →
      w.Do (addHeaders req p.auth.State.AccessToken) = .ok resp →
      resp.StatusCode = 200 → w.DecodeLockDetails resp.Body = .error msg →
      (p.GetLockDetails w lockID).out = .ret (none, some (.ErrorGeneric msg))) ∧
    (∀ (p : APIProvider) (lockID : String) (req : Request) (resp : Response),
      NewRequest w "GET" (apiBase ++ ("/locks/" ++ lockID ++ "/status")) none = .ok req →
      w.Do (addHeaders req p.auth.State.AccessToken) = .ok resp →
      resp.StatusCode = 200 → w.DecodeLockStatus resp.Body = .error msg →
      (p.GetLockStatus w lockID).out = .ret (none, some (.ErrorGeneric msg))) ∧
    (∀ (a : Authenticator) (b : String) (req : Request) (resp : Response),
      a.State.State ≠ AuthAuthenticated →
      w.MarshalAuthRequest
        { Identifier := w.AuthMethodString a.AuthMethod ++ ":" ++ a.UserName
          InstallID := a.State.InstallID
          Password := a.Password } = .ok b →
      NewRequest w "POST" (apiBase ++ "/session") (some b) = .ok req →
      w.Do (addHeaders req a.State.AccessToken) = .ok resp →
      resp.StatusCode = 200 → w.DecodeAuthResponse resp.Body = .error msg →
      (a.Authenticate w).out = .ret (some (.ErrorGeneric msg)) ∧
        (a.Authenticate w).auth = a ∧
        (a.Authenticate w).auth.State.AccessToken = a.State.AccessToken ∧
        (a.Authenticate w).auth.State.State = a.State.State) := by
  refine ⟨?_, ?_, ?_, ?_⟩
  · intro p req resp hreq hdo hs hdec
    refine ⟨?_, rfl⟩
    simp only [APIProvider.GetLocks,
      doAPICall_ok w p.auth "GET" "/users/locks/mine" none req resp hreq hdo hs, hdec]
  · intro p lockID req resp hreq hdo hs hdec
    simp only [APIProvider.GetLockDetails,
      doAPICall_ok w p.auth "GET" ("/locks/" ++ lockID) none req resp hreq hdo hs, hdec]
  · intro p lockID req resp hreq hdo hs hdec
    simp only [APIProvider.GetLockStatus,
      doAPICall_ok w p.auth "GET" ("/locks/" ++ lockID ++ "/status") none req resp
        hreq hdo hs, hdec]
  · intro a b req resp hphase hm hreq hdo hs hdec
    rw [Authenticate_on_200 w a b req resp hphase hm hreq hdo hs]
    simp [hdec]

/-- A 200 response with the truncated body "\x7b" makes the three getters and
`Authenticate` return ErrorGeneric with the decoder message, and no result. -/
theorem decode_failure_is_ErrorGeneric_witness :
    ((NewAPIProvider (sampleAuth "T1" AuthAuthenticated)).GetLocks
        (sampleWorld (.ok (bareResponse 200 "\x7b")))).out
        = .ret (none, some (.ErrorGeneric "unexpected EOF")) ∧
      ((NewAPIProvider (sampleAuth "T1" AuthAuthenticated)).GetLockDetails
        (sampleWorld (.ok (bareResponse 200 "\x7b"))) "L1").out
        = .ret (none, some (.ErrorGeneric "unexpected EOF")) ∧
      ((NewAPIProvider (sampleAuth "T1" AuthAuthenticated)).GetLockStatus
        (sampleWorld (.ok (bareResponse 200 "\x7b"))) "L1").out
        = .ret (none, some (.ErrorGeneric "unexpected EOF")) ∧
      ((sampleAuth "old" AuthRequiresAuthentication).Authenticate
        (sampleWorld (.ok (sampleResponse 200 "T1" "\x7b")))).out
        = .ret (some (.ErrorGeneric "unexpected EOF")) ∧
      ((sampleAuth "old" AuthRequiresAuthentication).Authenticate
        (sampleWorld (.ok (sampleResponse 200 "T1" "\x7b")))).auth
        = sampleAuth "old" AuthRequiresAuthentication :=
  have g := decode_failure_is_ErrorGeneric (sampleWorld (.ok (bareResponse 200 "\x7b")))
    "unexpected EOF"
  have h := (decode_failure_is_ErrorGeneric (sampleWorld (.ok (sampleResponse 200 "T1" "\x7b")))
    "unexpected EOF").2.2.2
    (sampleAuth "old" AuthRequiresAuthentication)
    "\x7b\"identifier\":\"phone:+15550100\",\"install_id\":\"gohomelock1\",\"password\":\"secret\"\x7d"
    { Method := "POST", URL := apiBase ++ "/session", Header := ⟨[]⟩,
      Body := some
        "\x7b\"identifier\":\"phone:+15550100\",\"install_id\":\"gohomelock1\",\"password\":\"secret\"\x7d" }
    (sampleResponse 200 "T1" "\x7b") (by decide) rfl rfl rfl rfl rfl
  ⟨(g.1 (NewAPIProvider (sampleAuth "T1" AuthAuthenticated))
      { Method := "GET", URL := apiBase ++ "/users/locks/mine", Header := ⟨[]⟩, Body := none }
      (bareResponse 200 "\x7b") rfl rfl rfl rfl).1,
    g.2.1 (NewAPIProvider (sampleAuth "T1" AuthAuthenticated)) "L1"
      { Method := "GET", URL := apiBase ++ "/locks/L1", Header := ⟨[]⟩, Body := none }
      (bareResponse 200 "\x7b") rfl rfl rfl rfl,
    g.2.2.1 (NewAPIProvider (sampleAuth "T1" AuthAuthenticated)) "L1"
      { Method := "GET", URL := apiBase ++ "/locks/L1/status", Header := ⟨[]⟩, Body := none }
      (bareResponse 200 "\x7b") rfl rfl rfl rfl,
    h.1, h.2.1⟩

/-- C7: when a 200 list-locks response decodes to a map of lock records (keys pairwise
distinct, as in any map; `recs` lists it in iteration order), `GetLocks` returns no
error and exactly one record per key, in that order: as many records as keys, pairwise
distinct IDs, each record with the key as its ID in place of any LockID of the body and
with name, user type, house id and house name as decoded. For the map of the body
"L1" to a record named "Front" the result is the single record with ID "L1" and name
"Front". -/
theorem GetLocks_one_record_per_key (w : World) (p : APIProvider) (req : Request)
    (resp : Response) (recs : List (String × Lock))
    (hreq : NewRequest w "GET" (apiBase ++ "/users/locks/mine") none = .ok req)
    (hdo : w.Do (addHeaders req p.auth.State.AccessToken) = .ok resp)
    (hs : resp.StatusCode = 200)
    (hdec : w.DecodeLocks resp.Body = .ok (recs.map (fun e => (e.1, some e.2))))
    (hkeys : (recs.map Prod.fst).Nodup) :
    ∃ res : List Lock, (p.GetLocks w).out = .ret (some res, none) ∧
      res.length = recs.length ∧
      (res.map Lock.ID).Nodup ∧
      res.map Lock.ID = recs.map Prod.fst ∧
      res = recs.map
        (fun e => (⟨e.1, e.2.Name, e.2.UserType, e.2.HouseID, e.2.HouseName⟩ : Lock)) ∧
      (∀ r : Lock, r ∈ res ↔
        ∃ e ∈ recs, r.ID = e.1 ∧ r.Name = e.2.Name ∧ r.UserType = e.2.UserType ∧
          r.HouseID = e.2.HouseID ∧ r.HouseName = e.2.HouseName) ∧
      (recs = [("L1", ⟨"", "Front", "", "", ""⟩)] →
        res = [⟨"L1", "Front", "", "", ""⟩]) := by
  refine ⟨recs.map
    (fun e => (⟨e.1, e.2.Name, e.2.UserType, e.2.HouseID, e.2.HouseName⟩ : Lock)),
    ?_, ?_, ?_, ?_, rfl, ?_, ?_⟩
  · simp only [APIProvider.GetLocks,
      doAPICall_ok w p.auth "GET" "/users/locks/mine" none req resp hreq hdo hs, hdec,
      rangeLocks_records, List.nil_append]
  · simp
  · have hid : (recs.map
        (fun e => (⟨e.1, e.2.Name, e.2.UserType, e.2.HouseID, e.2.HouseName⟩ : Lock))).map
          Lock.ID = recs.map Prod.fst := by
      simp [List.map_map, Function.comp_def]
    rw [hid]
    exact hkeys
  · simp [List.map_map, Function.comp_def]
  · intro r
    constructor
    · intro hr
      obtain ⟨e, he, rfl⟩ := List.mem_map.mp hr
      exact ⟨e, he, rfl, rfl, rfl, rfl, rfl⟩
    · rintro ⟨e, he, h1, h2, h3, h4, h5⟩
      refine List.mem_map.mpr ⟨e, he, ?_⟩
      cases r
      simp only at h1 h2 h3 h4 h5
      simp [h1, h2, h3, h4, h5]
  · intro h
    subst h
    rfl

/-- The round-trip example: the body that maps "L1" to a record named "Front" gives
exactly one record, with ID "L1" and name "Front". -/
theorem GetLocks_one_record_per_key_witness :
    ∃ res : List Lock,
      ((NewAPIProvider (sampleAuth "T1" AuthAuthenticated)).GetLocks
        (sampleWorld (.ok (bareResponse 200 bodyOneLock)))).out = .ret (some res, none) ∧
      res = [⟨"L1", "Front", "", "", ""⟩] :=
  have h := GetLocks_one_record_per_key (sampleWorld (.ok (bareResponse 200 bodyOneLock)))
    (NewAPIProvider (sampleAuth "T1" AuthAuthenticated))
    { Method := "GET", URL := apiBase ++ "/users/locks/mine", Header := ⟨[]⟩, Body := none }
    (bareResponse 200 bodyOneLock) [("L1", ⟨"", "Front", "", "", ""⟩)]
    rfl rfl rfl rfl (by decide)
  h.elim fun res hres => ⟨res, hres.1, hres.2.2.2.2.2.2 rfl⟩

/-- C8 fails as stated: an authenticator in phase BadPassword that calls `Authenticate`
again and gets a 200 login response with both checks passed and the token "T1" ends in
phase Authenticated. -/
theorem BadPassword_not_terminal :
    (sampleAuth "T0" AuthBadPassword).State.State = AuthBadPassword ∧
      ((sampleAuth "T0" AuthBadPassword).Authenticate
        (sampleWorld (.ok (sampleResponse 200 "T1" bodyBothVerified)))).out = .ret none ∧
      ((sampleAuth "T0" AuthBadPassword).Authenticate
        (sampleWorld (.ok (sampleResponse 200 "T1" bodyBothVerified)))).auth.State.State
        = AuthAuthenticated ∧
      ((sampleAuth "T0" AuthBadPassword).Authenticate
        (sampleWorld (.ok (sampleResponse 200 "T1" bodyBothVerified)))).auth.State.State
        ≠ AuthBadPassword := by
  decide

/-- C8 (amended): for an authenticator whose phase is BadPassword, under every world
(every server response), `SendVerificationCode` and `ValidateCode` leave the phase
BadPassword; `Authenticate` leaves it BadPassword whenever it does not return success,
and whenever the login response has vPassword false. The phase after `Authenticate`
differs from BadPassword only when the login exchange brought back status 200, a body
decoding with vPassword true and a non-empty token header value: `Authenticate` then
returns no error, stores that token, and the phase is RequiresValidation when vInstallId
is false and Authenticated when it is true. Conversely every such login response moves
the phase out of BadPassword. -/
theorem BadPassword_kept_except_by_successful_login (w : World) (a : Authenticator)
    (h : a.State.State = AuthBadPassword) :
    (a.SendVerificationCode w).auth.State.State = AuthBadPassword ∧
      (∀ code : String, (a.ValidateCode w code).auth.State.State = AuthBadPassword) ∧
      ((a.Authenticate w).out ≠ .ret none →
        (a.Authenticate w).auth.State.State = AuthBadPassword) ∧
      (∀ (b : String) (req : Request) (resp : Response) (authResp : authResponse),
        w.MarshalAuthRequest
          { Identifier := w.AuthMethodString a.AuthMethod ++ ":" ++ a.UserName
            InstallID := a.State.InstallID
            Password := a.Password } = .ok b →
        NewRequest w "POST" (apiBase ++ "/session") (some b) = .ok req →
        w.Do (addHeaders req a.State.AccessToken) = .ok resp →
        resp.StatusCode = 200 → w.DecodeAuthResponse resp.Body = .ok authResp →
        authResp.Password = false →
        (a.Authenticate w).auth.State.State = AuthBadPassword) ∧
      ((a.Authenticate w).auth.State.State ≠ AuthBadPassword →
        (a.Authenticate w).out = .ret none ∧
          ((a.Authenticate w).auth.State.State = AuthRequiresValidation ∨
            (a.Authenticate w).auth.State.State = AuthAuthenticated)) ∧
      ((a.Authenticate w).auth.State.State ≠ AuthBadPassword →
        ∃ (b : String) (req : Request) (resp : Response) (authResp : authResponse),
          w.MarshalAuthRequest
            { Identifier := w.AuthMethodString a.AuthMethod ++ ":" ++ a.UserName
              InstallID := a.State.InstallID
              Password := a.Password } = .ok b ∧
          NewRequest w "POST" (apiBase ++ "/session") (some b) = .ok req ∧
          w.Do (addHeaders req a.State.AccessToken) = .ok resp ∧
          resp.StatusCode = 200 ∧
          w.DecodeAuthResponse resp.Body = .ok authResp ∧
          authResp.Password = true ∧
          resp.Header.Get tokenHeader ≠ "" ∧
          (a.Authenticate w).out = .ret none ∧
          (a.Authenticate w).auth.State.AccessToken = resp.Header.Get tokenHeader ∧
          (authResp.InstallID = false →
            (a.Authenticate w).auth.State.State = AuthRequiresValidation) ∧
          (authResp.InstallID = true →
            (a.Authenticate w).auth.State.State = AuthAuthenticated)) ∧
      (∀ (b : String) (req : Request) (resp : Response) (authResp : authResponse),
        w.MarshalAuthRequest
          { Identifier := w.AuthMethodString a.AuthMethod ++ ":" ++ a.UserName
            InstallID := a.State.InstallID
            Password := a.Password } = .ok b →
        NewRequest w "POST" (apiBase ++ "/session") (some b) = .ok req →
        w.Do (addHeaders req a.State.AccessToken) = .ok resp →
        resp.StatusCode = 200 → w.DecodeAuthResponse resp.Body = .ok authResp →
        authResp.Password = true → resp.Header.Get tokenHeader ≠ "" →
        (a.Authenticate w).auth.State.State ≠ AuthBadPassword) := by
  have hphase : a.State.State ≠ AuthAuthenticated := by
    rw [h]
    decide
  refine ⟨?_, ?_, ?_, ?_, ?_, ?_, ?_⟩
  · rw [SendVerificationCode_auth]
    exact h
  · intro code
    rw [ValidateCode_auth]
    exact h
  · intro hout
    rcases Authenticate_auth_cases w a with hsame | ⟨_, _, _, hret, _⟩
    · rw [hsame]
      exact h
    · exact absurd hret hout
  · intro b req resp authResp hm hreq hdo hs hdec hp
    rw [Authenticate_on_200 w a b req resp hphase hm hreq hdo hs]
    simp only [hdec]
    split
    · exact h
    · simp [loginState, hp]
  · intro hne
    rcases Authenticate_auth_cases w a with hsame | ⟨authResp, T, _, hret, hauth⟩
    · rw [hsame] at hne
      exact absurd h hne
    · refine ⟨hret, ?_⟩
      rw [hauth] at hne ⊢
      simp only [loginState] at hne ⊢
      repeat' split
      all_goals simp_all
  · intro hne
    rcases Authenticate_changes_only_on_login w a with hsame |
      ⟨b, req, resp, authResp, hm, hreq, hdo, hs, hdec, htok, hret, hauth⟩
    · rw [hsame] at hne
      exact absurd h hne
    · have hp : authResp.Password = true := by
        cases hpw : authResp.Password with
        | true => rfl
        | false =>
          exfalso
          apply hne
          rw [hauth]
          simp [loginState, hpw]
      refine ⟨b, req, resp, authResp, hm, hreq, hdo, hs, hdec, hp, htok, hret, ?_, ?_, ?_⟩
      · rw [hauth]
      · intro hi
        rw [hauth]
        simp [loginState, hp, hi]
      · intro hi
        rw [hauth]
        simp [loginState, hp, hi]
  · intro b req resp authResp hm hreq hdo hs hdec hp htok
    have hne : ¬ "" = resp.Header.Get tokenHeader := fun e => htok e.symm
    rw [Authenticate_on_200 w a b req resp hphase hm hreq hdo hs]
    simp only [hdec, hne, if_false]
    cases hi : authResp.InstallID <;>
      simp [loginState, hp, hi, AuthBadPassword, AuthRequiresValidation, AuthAuthenticated]

/-- An authenticator in phase BadPassword stays there under `SendVerificationCode`,
under `ValidateCode`, and under an `Authenticate` answered 401. -/
theorem BadPassword_kept_except_by_successful_login_witness :
    ((sampleAuth "T0" AuthBadPassword).SendVerificationCode
        (sampleWorld (.ok (bareResponse 401 "")))).auth.State.State = AuthBadPassword ∧
      ((sampleAuth "T0" AuthBadPassword).ValidateCode
        (sampleWorld (.ok (bareResponse 401 ""))) "123456").auth.State.State
        = AuthBadPassword ∧
      ((sampleAuth "T0" AuthBadPassword).Authenticate
        (sampleWorld (.ok (bareResponse 401 "")))).auth.State.State = AuthBadPassword :=
  have h := BadPassword_kept_except_by_successful_login
    (sampleWorld (.ok (bareResponse 401 ""))) (sampleAuth "T0" AuthBadPassword) rfl
  ⟨h.1, h.2.1 "123456", h.2.2.1 (by decide)⟩

/-- C9 (as the code behaves): when `http.NewRequest` fails for the URL of a call, the
failure is not returned: `doAPICall` sends nothing and faults on the nil request, and so
`GetLockDetails`, `GetLockStatus`, `OpenLock` and `CloseLock` fault instead of returning
an error. -/
theorem request_build_failure_faults (w : World) (p : APIProvider) (lockID : String) :
    (∀ (a : Authenticator) (method url : String) (reader : Option String) (e : String),
      NewRequest w method (apiBase ++ url) reader = .error e →
      (doAPICall w a method url reader).out = .fault ∧
        (doAPICall w a method url reader).sent = []) ∧
    (∀ e, NewRequest w "GET" (apiBase ++ ("/locks/" ++ lockID)) none = .error e →
      (p.GetLockDetails w lockID).out = .fault ∧ (p.GetLockDetails w lockID).sent = []) ∧
    (∀ e, NewRequest w "GET" (apiBase ++ ("/locks/" ++ lockID ++ "/status")) none
        = .error e →
      (p.GetLockStatus w lockID).out = .fault ∧ (p.GetLockStatus w lockID).sent = []) ∧
    (∀ e b, w.MarshalOpTimeoutRequest { TimeoutSeconds := 30 } = .ok b →
      NewRequest w "PUT" (apiBase ++ ("/remoteoperate/" ++ lockID ++ "/" ++ "unlock"))
        (some b) = .error e →
      (p.OpenLock w lockID).out = .fault ∧ (p.OpenLock w lockID).sent = []) ∧
    (∀ e b, w.MarshalOpTimeoutRequest { TimeoutSeconds := 30 } = .ok b →
      NewRequest w "PUT" (apiBase ++ ("/remoteoperate/" ++ lockID ++ "/" ++ "lock"))
        (some b) = .error e →
      (p.CloseLock w lockID).out = .fault ∧ (p.CloseLock w lockID).sent = []) := by
  refine ⟨?_, ?_, ?_, ?_, ?_⟩
  · intro a method url reader e hreq
    simp only [doAPICall_no_request w a method url reader e hreq, and_self]
  · intro e hreq
    simp only [APIProvider.GetLockDetails,
      doAPICall_no_request w p.auth "GET" ("/locks/" ++ lockID) none e hreq, and_self]
  · intro e hreq
    simp only [APIProvider.GetLockStatus,
      doAPICall_no_request w p.auth "GET" ("/locks/" ++ lockID ++ "/status") none e hreq,
      and_self]
  · intro e b hm hreq
    simp only [APIProvider.OpenLock, APIProvider.lockOperation, hm,
      doAPICall_no_request w p.auth "PUT" ("/remoteoperate/" ++ lockID ++ "/" ++ "unlock")
        (some b) e hreq, and_self]
  · intro e b hm hreq
    simp only [APIProvider.CloseLock, APIProvider.lockOperation, hm,
      doAPICall_no_request w p.auth "PUT" ("/remoteoperate/" ++ lockID ++ "/" ++ "lock")
        (some b) e hreq, and_self]

/-- For the lock id "%zz" the four operations fault and send nothing. -/
theorem request_build_failure_faults_witness :
    ((NewAPIProvider (sampleAuth "T1" AuthAuthenticated)).GetLockDetails
        (sampleWorld (.ok (bareResponse 200 ""))) "%zz").out = .fault ∧
      ((NewAPIProvider (sampleAuth "T1" AuthAuthenticated)).GetLockStatus
        (sampleWorld (.ok (bareResponse 200 ""))) "%zz").out = .fault ∧
      ((NewAPIProvider (sampleAuth "T1" AuthAuthenticated)).OpenLock
        (sampleWorld (.ok (bareResponse 200 ""))) "%zz").out = .fault ∧
      ((NewAPIProvider (sampleAuth "T1" AuthAuthenticated)).CloseLock
        (sampleWorld (.ok (bareResponse 200 ""))) "%zz").out = .fault :=
  have h := request_build_failure_faults (sampleWorld (.ok (bareResponse 200 "")))
    (NewAPIProvider (sampleAuth "T1" AuthAuthenticated)) "%zz"
  ⟨(h.2.1 "invalid URL escape" rfl).1, (h.2.2.1 "invalid URL escape" rfl).1,
    (h.2.2.2.1 "invalid URL escape" "\x7b\"timeout\":30\x7d" rfl rfl).1,
    (h.2.2.2.2 "invalid URL escape" "\x7b\"timeout\":30\x7d" rfl rfl).1⟩

/-- C10 (as the code behaves): when a 200 list-locks response decodes without error to
a map that has a nil record under some key, `GetLocks` returns neither a collection nor
an error: it faults on storing the key in the missing record. -/
theorem GetLocks_faults_on_null_record (w : World) (p : APIProvider) (req : Request)
    (resp : Response) (m : List (String × Option Lock)) (k : String)
    (hreq : NewRequest w "GET" (apiBase ++ "/users/locks/mine") none = .ok req)
    (hdo : w.Do (addHeaders req p.auth.State.AccessToken) = .ok resp)
    (hs : resp.StatusCode = 200)
    (hdec : w.DecodeLocks resp.Body = .ok m)
    (hk : (k, none) ∈ m) :
    (p.GetLocks w).out = .fault := by
  simp only [APIProvider.GetLocks,
    doAPICall_ok w p.auth "GET" "/users/locks/mine" none req resp hreq hdo hs, hdec,
    rangeLocks_nil_value m [] k hk]

/-- The body that maps "L1" to null decodes to a map with a nil record, and `GetLocks`
faults on it. -/
theorem GetLocks_faults_on_null_record_witness :
    ((NewAPIProvider (sampleAuth "T1" AuthAuthenticated)).GetLocks
      (sampleWorld (.ok (bareResponse 200 bodyNullLock)))).out = .fault :=
  GetLocks_faults_on_null_record (sampleWorld (.ok (bareResponse 200 bodyNullLock)))
    (NewAPIProvider (sampleAuth "T1" AuthAuthenticated))
    { Method := "GET", URL := apiBase ++ "/users/locks/mine", Header := ⟨[]⟩, Body := none }
    (bareResponse 200 bodyNullLock) [("L1", none)] "L1" rfl rfl rfl rfl (by decide)

end August
